import Mathlib

/-!
Shallow embedding of the label-check-next compliance pipeline:
rule resolution, label extraction merge, compliance evaluation summary,
check-result persistence, rollback-on-failure, the rule-generation
importer, and the get-check read path.

Sources embedded:
  * src/lib/gemini.ts            (runComplianceCheck, generateDefaultRules)
  * src/app/api/analyze route    (POST orchestration, unnamed part_004)
  * rule-generation route        (inferCategory, POST diff loop, part_005)
  * schema + migrations          (part_000, part_001)
  * src/app/api/checks/[id]/route.ts (GET join)
-/

namespace LabelCheck

/-- Compliance status of one verdict: "pass" | "warning" | "fail". -/
inductive CStatus where
  | pass
  | warning
  | fail
deriving DecidableEq, Repr

/-- One per-rule verdict as parsed from the model response and enriched by
`runComplianceCheck` (gemini.ts `ComplianceResult`). -/
structure ComplianceResult where
  ruleId : String
  ruleName : Option String := none
  ruleDescription : Option String := none
  ruleCategory : Option String := none
  status : CStatus
  foundValue : Option String := none
  expectedValue : Option String := none
  explanation : String := ""
deriving DecidableEq, Repr

/-- The summary block computed at the end of `runComplianceCheck`. -/
structure Summary where
  overallStatus : CStatus
  passCount : Nat
  warningCount : Nat
  failCount : Nat
deriving DecidableEq, Repr

/-- gemini.ts `runComplianceCheck` summary computation:
`passCount = results.filter(r => r.status === "pass").length` etc., and
`overallStatus = failCount > 0 ? "fail" : warningCount > 0 ? "warning" : "pass"`. -/
def complianceSummary (results : List ComplianceResult) : Summary :=
  let passCount := (results.filter (fun r => r.status = CStatus.pass)).length
  let warningCount := (results.filter (fun r => r.status = CStatus.warning)).length
  let failCount := (results.filter (fun r => r.status = CStatus.fail)).length
  { overallStatus :=
      if failCount > 0 then CStatus.fail
      else if warningCount > 0 then CStatus.warning
      else CStatus.pass
    passCount := passCount
    warningCount := warningCount
    failCount := failCount }

/-- Boolean test that one character list is a prefix of another. -/
def charsPrefixOf : List Char → List Char → Bool
  | [], _ => true
  | _ :: _, [] => false
  | a :: as, b :: bs => a == b && charsPrefixOf as bs

/-- Boolean test that `pat` occurs contiguously inside the second list. -/
def charsInfixOf (pat : List Char) : List Char → Bool
  | [] => charsPrefixOf pat []
  | b :: bs => charsPrefixOf pat (b :: bs) || charsInfixOf pat bs

/-- JS `String.prototype.includes`: substring containment. -/
def jsIncludes (text pat : String) : Bool :=
  charsInfixOf pat.data text.data

/-- JS `String.prototype.toLowerCase` (ASCII, as used on rule text). -/
def jsToLower (s : String) : String :=
  String.mk (s.data.map Char.toLower)

/-- part_005 `inferCategory`: keyword matching over
`(ruleName + " " + ruleDescription).toLowerCase()`, first match wins,
default "General". -/
def inferCategory (ruleName ruleDescription : String) : String :=
  let text := jsToLower (ruleName ++ " " ++ ruleDescription)
  if jsIncludes text "warning" || jsIncludes text "keep out" ||
     jsIncludes text "addictive" || jsIncludes text "intoxicating" then
    "Required Warnings"
  else if jsIncludes text "symbol" || jsIncludes text "icon" ||
          jsIncludes text "universal" then
    "Symbols & Icons"
  else if jsIncludes text "ingredient" || jsIncludes text "allergen" then
    "Ingredient Panels"
  else if jsIncludes text "net weight" || jsIncludes text "net quantity" ||
          jsIncludes text "net contents" then
    "Net Weight Format"
  else if jsIncludes text "placement" || jsIncludes text "display" ||
          jsIncludes text "font" || jsIncludes text "legib" then
    "Placement Rules"
  else if jsIncludes text "thc" || jsIncludes text "cbd" ||
          jsIncludes text "cannabinoid" || jsIncludes text "potency" then
    "THC Content"
  else if jsIncludes text "manufacturer" || jsIncludes text "licensee" ||
          jsIncludes text "producer" then
    "Manufacturer Info"
  else if jsIncludes text "batch" || jsIncludes text "test" ||
          jsIncludes text "certificate" || jsIncludes text "qr code" then
    "Batch & Testing"
  else
    "General"

/-- The keyword→category table implicit in the if-chain of `inferCategory`,
in source order. -/
def categoryTable : List (List String × String) :=
  [ (["warning", "keep out", "addictive", "intoxicating"], "Required Warnings"),
    (["symbol", "icon", "universal"], "Symbols & Icons"),
    (["ingredient", "allergen"], "Ingredient Panels"),
    (["net weight", "net quantity", "net contents"], "Net Weight Format"),
    (["placement", "display", "font", "legib"], "Placement Rules"),
    (["thc", "cbd", "cannabinoid", "potency"], "THC Content"),
    (["manufacturer", "licensee", "producer"], "Manufacturer Info"),
    (["batch", "test", "certificate", "qr code"], "Batch & Testing") ]

/-- First-match keyword lookup over a keyword→category table,
defaulting to "General" (the description of `inferCategory` in the spec). -/
def firstMatch (text : String) : List (List String × String) → String
  | [] => "General"
  | (kws, cat) :: rest =>
      if kws.any (fun k => jsIncludes text k) then cat else firstMatch text rest

/-! ## Extracted label data (gemini.ts `ExtractedLabelData`) and the
    `combinedData` merge of `runComplianceCheck` -/

/-- A scalar JSON value appearing in extracted label data. -/
inductive JPrim where
  | str (s : String)
  | num (n : Int)
  | bool (b : Bool)
  | null
deriving DecidableEq, Repr

/-- A JSON value in an extracted-data record: a scalar or an array of
scalars (the merge logic only discriminates on array-ness). -/
inductive JVal where
  | prim (p : JPrim)
  | arr (xs : List JPrim)
deriving DecidableEq, Repr

/-- An extracted-data record (`Record<string, unknown>`), as an ordered
key/value list with JS-object semantics (no duplicate keys in practice;
`Object.entries` iterates in insertion order). -/
def ExtractedRec := List (String × JVal)

instance : DecidableEq ExtractedRec := inferInstanceAs (DecidableEq (List (String × JVal)))

instance : Repr ExtractedRec := inferInstanceAs (Repr (List (String × JVal)))

/-- JS property read `r[k]`: first binding of `k`, `undefined` = `none`. -/
def getVal (r : ExtractedRec) (k : String) : Option JVal :=
  (r.find? (fun p => p.1 == k)).map (fun p => p.2)

/-- JS property write `r[k] = v`: replace the binding in place, or append. -/
def setVal : ExtractedRec → String → JVal → ExtractedRec
  | [], k, v => [(k, v)]
  | (k', v') :: rest, k, v =>
      if k' == k then (k, v) :: rest else (k', v') :: setVal rest k v

/-- JS stringification of a scalar, as done by template interpolation. -/
def primToString : JPrim → String
  | .str s => s
  | .num n => toString n
  | .bool b => if b then "true" else "false"
  | .null => "null"

/-- JS stringification of a value (arrays join with ","). -/
def jsToString : JVal → String
  | .prim p => primToString p
  | .arr xs => String.intercalate "," (xs.map primToString)

/-- JS falsiness of a value (`""`, `0`, `false`, `null` are falsy;
arrays are always truthy). -/
def jsFalsy : JVal → Bool
  | .prim (.str s) => s == ""
  | .prim (.num n) => n == 0
  | .prim (.bool b) => !b
  | .prim .null => true
  | .arr _ => false

/-- JS or-with-empty-default, then stringified: the operand of the rawText interpolation. -/
def jsOrEmptyStr : Option JVal → String
  | none => ""
  | some v => if jsFalsy v then "" else jsToString v

/-- JS `String.prototype.trim` (whitespace from both ends). -/
def jsTrim (s : String) : String :=
  String.mk (((s.data.dropWhile Char.isWhitespace).reverse.dropWhile
      Char.isWhitespace).reverse)

/-- The rawText merge of `runComplianceCheck`:
```merged[key] = `${acc.rawText || ""} ${value || ""}`.trim()``` -/
def rawTextJoin (acc : ExtractedRec) (v : JVal) : String :=
  jsTrim (jsOrEmptyStr (getVal acc "rawText") ++ " " ++ jsOrEmptyStr (some v))

/-- The per-entry merge of the `combinedData` reduce in `runComplianceCheck`:
array+array concatenates, `rawText` joins with a space, anything else is
overwritten by the incoming value. All reads are from the accumulator
`acc` of the enclosing panel step (the loop writes into `merged`). -/
def mergeVal (acc : ExtractedRec) (k : String) (v : JVal) : JVal :=
  match v, getVal acc k with
  | .arr xs, some (.arr ys) => .arr (ys ++ xs)
  | _, _ =>
      if k == "rawText" then .prim (.str (rawTextJoin acc v)) else v

/-- One step of the `combinedData` reduce: merge the record of one panel into
the accumulator (`merged` starts as `{...acc}` and each entry of the
panel data is written into it, computed against the original `acc`). -/
def mergePanel (acc p : ExtractedRec) : ExtractedRec :=
  p.foldl (fun m kv => setVal m kv.1 (mergeVal acc kv.1 kv.2)) acc

/-- Source `combinedData`: fold the extracted records of all panels into one, starting
from the empty object. -/
def combinedData (panels : List ExtractedRec) : ExtractedRec :=
  panels.foldl mergePanel []

/-! ## Rule store rows and the rule-generation importer (part_005) -/

/-- A persisted `compliance_rules` row (schema part_000 + migration part_002). -/
structure StoredRule where
  id : String
  rule_set_id : String
  name : String
  description : String
  category : String
  severity : String
  validation_prompt : String
  source_citation : Option String := none
  generation_status : Option String := none
  is_active : Bool := true
deriving DecidableEq, Repr

/-- Tag assigned by the external extraction service to each returned rule. -/
inductive GenStatus where
  | new
  | updated
  | unchanged
deriving DecidableEq, Repr

/-- The string the route writes for a `GenStatus` (`rule.status`). -/
def genStatusStr : GenStatus → String
  | .new => "new"
  | .updated => "updated"
  | .unchanged => "unchanged"

/-- One rule in the response of the external extraction service (`ExtractedRule`). -/
structure ServiceRule where
  rule_name : String
  rule_description : String
  rule_text_citation : String
  status : GenStatus
  change_reason : Option String := none
deriving DecidableEq, Repr

/-- Counts returned by the importer. -/
structure ImportCounts where
  added : Nat
  updated : Nat
  skipped : Nat
deriving DecidableEq, Repr

/-- The `compliance_rules` row built by the INSERT of the importer: description
doubles as validation_prompt, severity defaults to "error", and
`generation_status` is "new" on both insert paths. -/
def newRuleRow (rsId rid : String) (r : ServiceRule) (category : String) : StoredRule :=
  { id := rid
    rule_set_id := rsId
    name := r.rule_name
    description := r.rule_description
    category := category
    severity := "error"
    validation_prompt := r.rule_description
    source_citation := some r.rule_text_citation
    generation_status := some "new"
    is_active := true }

/-- The UPDATE statement of the importer: set name, description, validation_prompt (both
from `rule_description`), category and generation_status ("updated") on the
row with the matched id. -/
def applyRuleUpdate (store : List StoredRule) (targetId : String) (r : ServiceRule)
    (category : String) : List StoredRule :=
  store.map fun s =>
    if s.id == targetId then
      { s with
        name := r.rule_name
        description := r.rule_description
        validation_prompt := r.rule_description
        category := category
        generation_status := some (genStatusStr GenStatus.updated) }
    else s

/-- Source lookup `existingRules.find` comparing `source_citation` with `rule_text_citation`:
exact citation match against the pre-loop snapshot (a NULL citation never
matches). -/
def findByCitation (existing : List StoredRule) (r : ServiceRule) : Option StoredRule :=
  existing.find? (fun s => s.source_citation == some r.rule_text_citation)

/-- State threaded through the diff loop of the importer: the rows of the rule set,
the running counts, and the next fresh-id index for INSERTs. -/
structure ImportState where
  store : List StoredRule
  counts : ImportCounts
  nextId : Nat
deriving DecidableEq, Repr

/-- One iteration of the diff loop of the rule-generation route (part_005):
`new` inserts, `updated` updates the citation-matched row in place or
inserts as new when no citation matches, `unchanged` only counts. -/
def importStep (rsId : String) (existing : List StoredRule) (ids : Nat → String)
    (st : ImportState) (r : ServiceRule) : ImportState :=
  let category := inferCategory r.rule_name r.rule_description
  match r.status with
  | .new =>
      { store := st.store ++ [newRuleRow rsId (ids st.nextId) r category]
        counts := { st.counts with added := st.counts.added + 1 }
        nextId := st.nextId + 1 }
  | .updated =>
      match findByCitation existing r with
      | some ex =>
          { store := applyRuleUpdate st.store ex.id r category
            counts := { st.counts with updated := st.counts.updated + 1 }
            nextId := st.nextId }
      | none =>
          { store := st.store ++ [newRuleRow rsId (ids st.nextId) r category]
            counts := { st.counts with added := st.counts.added + 1 }
            nextId := st.nextId + 1 }
  | .unchanged =>
      { st with counts := { st.counts with skipped := st.counts.skipped + 1 } }

/-- The whole diff loop: `existing` is both the table fragment for this rule
set and the comparison snapshot used by `updated` lookups. -/
def importRules (rsId : String) (existing : List StoredRule)
    (incoming : List ServiceRule) (ids : Nat → String) : ImportState :=
  incoming.foldl (importStep rsId existing ids)
    { store := existing, counts := ⟨0, 0, 0⟩, nextId := 0 }

/-! ## Generated rules and the analyze-route orchestration (part_004,
    gemini.ts) -/

/-- A rule as parsed from the model JSON in `generateDefaultRules`,
before ids are assigned. -/
structure RawGenRule where
  name : String
  description : String
  category : String
  severity : String
  validation_prompt : String
deriving DecidableEq, Repr

/-- gemini.ts `GeneratedRule`: runtime-only, never persisted. -/
structure GeneratedRule where
  id : String
  name : String
  description : String
  category : String
  severity : String
  validation_prompt : String
  is_generated : Bool
deriving DecidableEq, Repr

/-- The mapping step of `generateDefaultRules`: give each parsed rule a
fresh id from the uuid supply and mark it `is_generated: true`. -/
def assignGeneratedIds (uuids : Nat → String) (i : Nat) :
    List RawGenRule → List GeneratedRule
  | [] => []
  | r :: rest =>
      { id := uuids i
        name := r.name
        description := r.description
        category := r.category
        severity := r.severity
        validation_prompt := r.validation_prompt
        is_generated := true } :: assignGeneratedIds uuids (i + 1) rest

/-- gemini.ts `generateDefaultRules` after a successful model call. -/
def generateDefaultRules (uuids : Nat → String) (raw : List RawGenRule) :
    List GeneratedRule :=
  assignGeneratedIds uuids 0 raw

/-- gemini.ts `AnyRule = ComplianceRule | GeneratedRule`. -/
inductive AnyRule where
  | persisted (r : StoredRule)
  | generated (g : GeneratedRule)
deriving DecidableEq, Repr

/-- The id used to key `ruleMap` and the evaluation prompt. -/
def AnyRule.ruleId : AnyRule → String
  | .persisted r => r.id
  | .generated g => g.id

/-- Display name of either rule form. -/
def AnyRule.ruleName : AnyRule → String
  | .persisted r => r.name
  | .generated g => g.name

/-- Description of either rule form. -/
def AnyRule.ruleDescription : AnyRule → String
  | .persisted r => r.description
  | .generated g => g.description

/-- Category of either rule form. -/
def AnyRule.ruleCategory : AnyRule → String
  | .persisted r => r.category
  | .generated g => g.category

/-- Enrichment step of `runComplianceCheck`: look up the rule of each verdict
by id (a JS `Map` built from the rule list keeps the last binding per id)
and copy in name/description/category; verdicts with unknown rule ids are
returned unchanged. -/
def enrichResults (rules : List AnyRule) (raw : List ComplianceResult) :
    List ComplianceResult :=
  raw.map fun r =>
    match rules.reverse.find? (fun ar => ar.ruleId == r.ruleId) with
    | some rule =>
        { r with
          ruleName := some rule.ruleName
          ruleDescription := some rule.ruleDescription
          ruleCategory := some rule.ruleCategory }
    | none => r

/-! ### Database rows (schema part_000 with migrations part_001, part_003) -/

/-- A `rule_sets` row (fields the analyze path reads). -/
structure RuleSetRow where
  id : String
  user_id : String
  product_type : String
  state_name : Option String := none
  state_abbreviation : Option String := none
deriving DecidableEq, Repr

/-- A `compliance_checks` row; `completed` stands for
`completed_at IS NOT NULL`. -/
structure CheckRow where
  id : String
  user_id : String
  rule_set_id : String
  overall_status : Option CStatus := none
  pass_count : Nat := 0
  warning_count : Nat := 0
  fail_count : Nat := 0
  completed : Bool := false
deriving DecidableEq, Repr

/-- A `panel_uploads` row. -/
structure PanelRow where
  id : String
  compliance_check_id : String
  panel_type : String
  blob_url : String
  extracted_data : Option ExtractedRec := none
deriving DecidableEq, Repr

/-- A `check_results` row after migration part_001 (nullable `rule_id`,
inline generated-rule columns, `is_generated_rule`). -/
structure CheckResultRow where
  id : String
  compliance_check_id : String
  rule_id : Option String
  status : CStatus
  found_value : Option String
  expected_value : Option String
  explanation : Option String
  is_generated_rule : Bool
  generated_rule_name : Option String
  generated_rule_description : Option String
  generated_rule_category : Option String
deriving DecidableEq, Repr

/-- The application database state. -/
structure DB where
  rule_sets : List RuleSetRow
  compliance_rules : List StoredRule
  compliance_checks : List CheckRow
  panel_uploads : List PanelRow
  check_results : List CheckResultRow
deriving DecidableEq, Repr

/-- JS `x || default` on an optional string (empty string is falsy). -/
def jsOrDefault (o : Option String) (d : String) : String :=
  match o with
  | some s => if s == "" then d else s
  | none => d

/-- JS `x || null` on an optional string (empty string becomes null). -/
def jsOrNull (o : Option String) : Option String :=
  match o with
  | some s => if s == "" then none else some s
  | none => none

/-- The `check_results` row built by the analyze route for one verdict:
the generated-rule branch stores `rule_id = NULL`, `is_generated_rule =
true` and the inline rule details (`r.ruleName || "Unknown Rule"`,
`r.ruleDescription || null`, `r.ruleCategory || "General"`); the
persisted-rule branch stores the `ruleId` of the verdict with
`is_generated_rule = false`. -/
def mkCheckResultRow (rid checkId : String) (isGenerated : Bool)
    (r : ComplianceResult) : CheckResultRow :=
  if isGenerated then
    { id := rid
      compliance_check_id := checkId
      rule_id := none
      status := r.status
      found_value := r.foundValue
      expected_value := r.expectedValue
      explanation := some r.explanation
      is_generated_rule := true
      generated_rule_name := some (jsOrDefault r.ruleName "Unknown Rule")
      generated_rule_description := jsOrNull r.ruleDescription
      generated_rule_category := some (jsOrDefault r.ruleCategory "General") }
  else
    { id := rid
      compliance_check_id := checkId
      rule_id := some r.ruleId
      status := r.status
      found_value := r.foundValue
      expected_value := r.expectedValue
      explanation := some r.explanation
      is_generated_rule := false
      generated_rule_name := none
      generated_rule_description := none
      generated_rule_category := none }

/-! ### Orchestration of the analyze route (part_004 POST) -/

/-- Outcomes of the external calls and database writes made inside the
try block of the route, injected as an oracle (the model and the database are
collaborators whose success/failure the route reacts to). -/
structure AnalyzeOracle where
  /-- Outcome of `generateDefaultRules`: parsed rules on success, thrown error otherwise. -/
  genRules : Except String (List RawGenRule)
  /-- Supply of `crypto.randomUUID()` values used for generated rule ids. -/
  uuids : Nat → String
  /-- blob download + `extractLabelData` outcome for the i-th panel. -/
  extractOutcome : Nat → Except String ExtractedRec
  /-- Outcome of `UPDATE panel_uploads SET extracted_data` for the i-th panel. -/
  panelUpdateOutcome : Nat → Option String
  /-- model call + parse of `runComplianceCheck`: the raw verdict list. -/
  evalOutcome : Except String (List ComplianceResult)
  /-- Outcome of `INSERT INTO check_results` for the i-th verdict. -/
  insertOutcome : Nat → Option String
  /-- row ids assigned by the database to inserted results. -/
  resultIds : Nat → String
  /-- Outcome of `UPDATE compliance_checks` (the summary write). -/
  updateOutcome : Option String
  /-- cleanup `DELETE FROM compliance_checks` outcome in the catch block. -/
  deleteOutcome : Option String

/-- Rule resolution in the analyze route: query active rules of the rule
set; if none, call `generateDefaultRules` and mark the run generated,
otherwise use the persisted rules as they are. Returns the rule list and
the `isGenerated` flag of the route. -/
def resolveRules (o : AnalyzeOracle) (db : DB) (ruleSetId : String) :
    Except String (List AnyRule × Bool) :=
  let persisted := db.compliance_rules.filter
    (fun r => r.rule_set_id == ruleSetId && r.is_active)
  if persisted.isEmpty then
    match o.genRules with
    | .error e => .error e
    | .ok raw => .ok ((generateDefaultRules o.uuids raw).map AnyRule.generated, true)
  else
    .ok (persisted.map AnyRule.persisted, false)

/-- The sequential per-panel extraction loop: each success writes
`extracted_data` onto the panel row and collects
`(panelId, panelType, extractedData)`; any failure aborts with the
database as already written. -/
def extractLoop (o : AnalyzeOracle) (db : DB) :
    List PanelRow → Nat → Except (String × DB) (DB × List (String × String × ExtractedRec))
  | [], _ => .ok (db, [])
  | p :: rest, i =>
      match o.extractOutcome i with
      | .error e => .error (e, db)
      | .ok ext =>
          match o.panelUpdateOutcome i with
          | some e => .error (e, db)
          | none =>
              let db' : DB :=
                { db with
                  panel_uploads := db.panel_uploads.map fun q =>
                    if q.id == p.id then { q with extracted_data := some ext } else q }
              match extractLoop o db' rest (i + 1) with
              | .error r => .error r
              | .ok (db'', acc) => .ok (db'', (p.id, p.panel_type, ext) :: acc)

/-- The result-persistence loop: insert one `check_results` row per
verdict; a failed insert aborts with the rows written so far kept. -/
def saveLoop (o : AnalyzeOracle) (checkId : String) (isGenerated : Bool)
    (db : DB) : List ComplianceResult → Nat → Except (String × DB) DB
  | [], _ => .ok db
  | r :: rest, i =>
      match o.insertOutcome i with
      | some e => .error (e, db)
      | none =>
          saveLoop o checkId isGenerated
            { db with
              check_results :=
                db.check_results ++ [mkCheckResultRow (o.resultIds i) checkId isGenerated r] }
            rest (i + 1)

/-- The summary UPDATE: set `overall_status`, the three counters and
`completed_at` on the check row. -/
def updateCheckSummary (db : DB) (checkId : String) (s : Summary) : DB :=
  { db with
    compliance_checks := db.compliance_checks.map fun c =>
      if c.id == checkId then
        { c with
          overall_status := some s.overallStatus
          pass_count := s.passCount
          warning_count := s.warningCount
          fail_count := s.failCount
          completed := true }
      else c }

/-- Statement `DELETE FROM compliance_checks WHERE id = $1` with the
`ON DELETE CASCADE` of the schema to `panel_uploads` and `check_results`. -/
def deleteCheckCascade (db : DB) (checkId : String) : DB :=
  { db with
    compliance_checks := db.compliance_checks.filter (fun c => !(c.id == checkId))
    panel_uploads := db.panel_uploads.filter (fun p => !(p.compliance_check_id == checkId))
    check_results := db.check_results.filter (fun r => !(r.compliance_check_id == checkId)) }

/-- Everything inside the try block of the route: resolve rules, extract every
panel, evaluate (enrich + summary as in `runComplianceCheck`), persist one
result row per verdict, then write the summary. Errors carry the database
as it stood when the step threw. -/
def analyzeTry (o : AnalyzeOracle) (db : DB) (checkId ruleSetId : String)
    (panels : List PanelRow) :
    Except (String × DB) (Summary × List ComplianceResult × Bool × DB) :=
  match resolveRules o db ruleSetId with
  | .error e => .error (e, db)
  | .ok (rules, isGenerated) =>
      match extractLoop o db panels 0 with
      | .error r => .error r
      | .ok (db1, extractedPanels) =>
          let _combined := combinedData (extractedPanels.map (fun t => t.2.2))
          match o.evalOutcome with
          | .error e => .error (e, db1)
          | .ok rawResults =>
              let results := enrichResults rules rawResults
              let summary := complianceSummary results
              match saveLoop o checkId isGenerated db1 results 0 with
              | .error r => .error r
              | .ok db2 =>
                  match o.updateOutcome with
                  | some e => .error (e, db2)
                  | none => .ok (summary, results, isGenerated, updateCheckSummary db2 checkId summary)

/-- Projection of the database state out of a try-block outcome (the state
as committed on success, or as it stood when the step threw). -/
def tryResultDb :
    Except (String × DB) (Summary × List ComplianceResult × Bool × DB) → DB
  | .ok (_, _, _, d) => d
  | .error (_, d) => d

/-- HTTP-level outcome of the analyze route. -/
inductive ApiResponse where
  | ok (summary : Summary) (isGenerated : Bool)
  | badRequest (msg : String)
  | notFound (msg : String)
  | serverError (msg details : String)
deriving DecidableEq, Repr

/-- part_004 `POST /api/analyze`: validate input, look the check up with
its rule set, require panels, run the try block; on any failure run the
best-effort cleanup delete (its own failure is only logged) and return the
original error. -/
def analyzePOST (o : AnalyzeOracle) (db : DB) (userId checkId : String) :
    ApiResponse × DB :=
  if checkId == "" then (.badRequest "Check ID is required", db)
  else
    match db.compliance_checks.find? (fun c => c.id == checkId && c.user_id == userId) with
    | none => (.notFound "Check not found", db)
    | some check =>
        match db.rule_sets.find? (fun rs => rs.id == check.rule_set_id) with
        | none => (.notFound "Check not found", db)
        | some _rs =>
            let panels := db.panel_uploads.filter
              (fun p => p.compliance_check_id == checkId)
            if panels.isEmpty then (.badRequest "No panels found for this check", db)
            else
              match analyzeTry o db checkId check.rule_set_id panels with
              | .ok (summary, _results, isGenerated, db') => (.ok summary isGenerated, db')
              | .error (msg, dbAtFail) =>
                  match o.deleteOutcome with
                  | none =>
                      (.serverError "Failed to analyze panels" msg,
                        deleteCheckCascade dbAtFail checkId)
                  | some _ =>
                      (.serverError "Failed to analyze panels" msg, dbAtFail)

/-! ### The get-check read path (src/app/api/checks/[id]/route.ts GET) -/

/-- The results query of the get-check endpoint: an INNER JOIN of
`check_results` with `compliance_rules` on `r.id = cr.rule_id` (ids are
primary keys, so at most one rule matches), ordered by rule category then
rule name. -/
def getCheckResultsJoin (db : DB) (checkId : String) :
    List (CheckResultRow × StoredRule) :=
  (((db.check_results.filter (fun r => r.compliance_check_id == checkId)).foldr
      (fun r acc =>
        match db.compliance_rules.find? (fun cr => some cr.id == r.rule_id) with
        | some rule => (r, rule) :: acc
        | none => acc) []).mergeSort
    (fun a b =>
      a.2.category < b.2.category ||
        (a.2.category == b.2.category && a.2.name ≤ b.2.name)))

/-- The provenance invariant of `check_results` rows (migration part_001,
constraint `check_results_rule_source`, strengthened to exclusivity as the
spec states it): exactly one of the persisted-rule form (`rule_id` set) and
the generated-rule form (`is_generated_rule` with `generated_rule_name`
set) holds. -/
def ProvenanceExclusive (row : CheckResultRow) : Prop :=
  (row.rule_id ≠ none ∧ ¬(row.is_generated_rule = true ∧ row.generated_rule_name ≠ none)) ∨
  (row.rule_id = none ∧ row.is_generated_rule = true ∧ row.generated_rule_name ≠ none)

/-! ### Concrete fixtures used to evaluate the embedding on closed inputs -/

/-- A stored rule used by the fixtures. -/
def fixtureRule : StoredRule :=
  { id := "rule1"
    rule_set_id := "rs1"
    name := "Net Weight"
    description := "net weight statement"
    category := "Net Weight Format"
    severity := "error"
    validation_prompt := "Check net weight"
    source_citation := some "https://rules.example/net-weight"
    generation_status := none
    is_active := true }

/-- A database with one rule set, one active rule, one incomplete check and
one uploaded panel. -/
def fixtureDb : DB :=
  { rule_sets := [{ id := "rs1", user_id := "u1", product_type := "flower" }]
    compliance_rules := [fixtureRule]
    compliance_checks := [{ id := "chk1", user_id := "u1", rule_set_id := "rs1" }]
    panel_uploads :=
      [{ id := "p1", compliance_check_id := "chk1", panel_type := "front",
         blob_url := "https://blob.example/p1" }]
    check_results := [] }

/-- The same database with no persisted rules (forces the generated-rule
fallback). -/
def fixtureDbNoRules : DB :=
  { fixtureDb with compliance_rules := [] }

/-- Oracle where every step succeeds and evaluation returns zero verdicts. -/
def oracleEmptyVerdicts : AnalyzeOracle :=
  { genRules := .ok []
    uuids := fun _ => "gen-uuid"
    extractOutcome := fun _ => .ok []
    panelUpdateOutcome := fun _ => none
    evalOutcome := .ok []
    insertOutcome := fun _ => none
    resultIds := fun _ => "res-id"
    updateOutcome := none
    deleteOutcome := none }

/-- The fixture database after the extraction loop wrote the (empty)
extracted record onto the panel. -/
def fixtureDbExtracted : DB :=
  { fixtureDb with
    panel_uploads :=
      [{ id := "p1", compliance_check_id := "chk1", panel_type := "front",
         blob_url := "https://blob.example/p1", extracted_data := some [] }] }

/-- Oracle whose rule-generation model call fails and whose cleanup delete
succeeds. -/
def oracleGenFails : AnalyzeOracle :=
  { oracleEmptyVerdicts with genRules := .error "Gemini API error" }

/-- Oracle whose rule-generation model call fails and whose cleanup delete
also fails. -/
def oracleGenFailsDeleteFails : AnalyzeOracle :=
  { oracleGenFails with deleteOutcome := some "connection lost" }

/-- A raw generated rule as parsed from the model JSON. -/
def fixtureRawGenRule : RawGenRule :=
  { name := "Universal Symbol"
    description := "universal symbol required"
    category := "Symbols & Icons"
    severity := "error"
    validation_prompt := "Check for the universal symbol" }

/-- A verdict with status fail. -/
def fixtureFailVerdict : ComplianceResult :=
  { ruleId := "rule1", status := CStatus.fail, explanation := "missing" }

/-- Accumulated record fixture for the merge law. -/
def fixtureAcc : ExtractedRec :=
  [("rawText", JVal.prim (JPrim.str "front text")),
   ("warnings", JVal.arr [JPrim.str "keep away"])]

/-- Incoming panel record fixture for the merge law. -/
def fixturePanelRec : ExtractedRec :=
  [("rawText", JVal.prim (JPrim.str "back text")),
   ("warnings", JVal.arr [JPrim.str "addictive"]),
   ("thcPercent", JVal.prim (JPrim.num 21))]

/-- A service rule tagged unchanged, citation matching `fixtureRule`. -/
def fixtureUnchangedRule : ServiceRule :=
  { rule_name := "Net Weight"
    rule_description := "net weight statement"
    rule_text_citation := "https://rules.example/net-weight"
    status := GenStatus.unchanged }

/-- A service rule tagged new. -/
def fixtureNewRule : ServiceRule :=
  { rule_name := "Batch Number"
    rule_description := "batch number required"
    rule_text_citation := "https://rules.example/batch"
    status := GenStatus.new }

/-- A service rule tagged updated whose citation matches `fixtureRule`. -/
def fixtureUpdatedRule : ServiceRule :=
  { rule_name := "Net Weight Statement"
    rule_description := "net weight in grams and ounces"
    rule_text_citation := "https://rules.example/net-weight"
    status := GenStatus.updated }

/-- A stored check result with generated-rule provenance (rule_id NULL). -/
def fixtureGenResultRow : CheckResultRow :=
  { id := "cr1", compliance_check_id := "chk1", rule_id := none,
    status := CStatus.pass, found_value := some "21%",
    expected_value := some "THC shown", explanation := some "ok",
    is_generated_rule := true, generated_rule_name := some "THC Content Display",
    generated_rule_description := some "show THC",
    generated_rule_category := some "THC Content" }

/-- A database whose only check has two generated-provenance results
(rule_id NULL). -/
def fixtureDbGeneratedResults : DB :=
  { fixtureDb with
    check_results :=
      [fixtureGenResultRow,
       { id := "cr2", compliance_check_id := "chk1", rule_id := none,
         status := CStatus.fail, found_value := none,
         expected_value := some "universal symbol", explanation := some "missing",
         is_generated_rule := true, generated_rule_name := some "Universal Symbol",
         generated_rule_description := none,
         generated_rule_category := some "Symbols & Icons" }] }

/-- Oracle returning one generated rule from the model. -/
def oracleGenOne : AnalyzeOracle :=
  { oracleEmptyVerdicts with genRules := .ok [fixtureRawGenRule] }

/-! ## Helper lemmas -/

theorem getVal_setVal_self (r : ExtractedRec) (k : String) (v : JVal) :
    getVal (setVal r k v) k = some v := by
  induction r with
  | nil => simp [setVal, getVal, List.find?]
  | cons kv rest ih =>
      obtain ⟨k', v'⟩ := kv
      by_cases h : (k' == k) = true
      · simp [setVal, h, getVal, List.find?]
      · simp only [setVal, h, Bool.false_eq_true, if_false]
        simpa [getVal, List.find?, h] using ih

theorem getVal_setVal_ne (r : ExtractedRec) (k k₀ : String) (v : JVal)
    (h : (k₀ == k) = false) : getVal (setVal r k₀ v) k = getVal r k := by
  induction r with
  | nil => simp [setVal, getVal, List.find?, h]
  | cons kv rest ih =>
      obtain ⟨k', v'⟩ := kv
      by_cases h' : (k' == k₀) = true
      · have hkk : k' = k₀ := eq_of_beq h'
        subst hkk
        simp [setVal, getVal, List.find?, h]
      · simp only [setVal, h', Bool.false_eq_true, if_false]
        by_cases hk : (k' == k) = true
        · simp [getVal, List.find?, hk]
        · simpa [getVal, List.find?, hk] using ih

theorem getVal_eq_none_of_not_mem (p : ExtractedRec) (k : String)
    (h : k ∉ p.map Prod.fst) : getVal p k = none := by
  induction p with
  | nil => simp [getVal, List.find?]
  | cons kv rest ih =>
      obtain ⟨k', v'⟩ := kv
      simp only [List.map_cons, List.mem_cons] at h
      push_neg at h
      have hk : (k' == k) = false := beq_eq_false_iff_ne.mpr (Ne.symm h.1)
      simp only [getVal, List.find?, hk]
      exact ih h.2

theorem getVal_cons (k₁ : String) (v₁ : JVal) (rest : ExtractedRec) (k : String) :
    getVal ((k₁, v₁) :: rest) k = cond (k₁ == k) (some v₁) (getVal rest k) := by
  cases h : (k₁ == k) <;> simp [getVal, List.find?, h]

theorem mergePanel_foldl_getVal (acc : ExtractedRec) (k : String) :
    ∀ (p m : ExtractedRec), (p.map Prod.fst).Nodup →
      getVal (p.foldl (fun m kv => setVal m kv.1 (mergeVal acc kv.1 kv.2)) m) k =
        match getVal p k with
        | some v => some (mergeVal acc k v)
        | none => getVal m k := by
  intro p
  induction p with
  | nil => intro m _; simp [getVal, List.find?]
  | cons kv rest ih =>
      intro m hnd
      obtain ⟨k₁, v₁⟩ := kv
      simp only [List.map_cons, List.nodup_cons] at hnd
      obtain ⟨hk₁, hrest⟩ := hnd
      simp only [List.foldl_cons]
      rw [ih (setVal m k₁ (mergeVal acc k₁ v₁)) hrest, getVal_cons]
      cases h : (k₁ == k) with
      | true =>
          have hkk : k₁ = k := eq_of_beq h
          subst hkk
          rw [getVal_eq_none_of_not_mem rest k₁ hk₁]
          show getVal (setVal m k₁ (mergeVal acc k₁ v₁)) k₁ = some (mergeVal acc k₁ v₁)
          exact getVal_setVal_self m k₁ (mergeVal acc k₁ v₁)
      | false =>
          cases hfind : getVal rest k with
          | some v => rfl
          | none =>
              show getVal (setVal m k₁ (mergeVal acc k₁ v₁)) k = getVal m k
              exact getVal_setVal_ne m k k₁ (mergeVal acc k₁ v₁) h

theorem extractLoop_ok_preserves (o : AnalyzeOracle) :
    ∀ (panels : List PanelRow) (i : Nat) (db db' : DB)
      (eps : List (String × String × ExtractedRec)),
      extractLoop o db panels i = .ok (db', eps) →
      db'.rule_sets = db.rule_sets ∧ db'.compliance_rules = db.compliance_rules ∧
      db'.compliance_checks = db.compliance_checks ∧
      db'.check_results = db.check_results := by
  intro panels
  induction panels with
  | nil =>
      intro i db db' eps h
      simp only [extractLoop] at h
      cases h
      exact ⟨rfl, rfl, rfl, rfl⟩
  | cons p rest ih =>
      intro i db db' eps h
      simp only [extractLoop] at h
      split at h
      · exact absurd h (by simp)
      · split at h
        · exact absurd h (by simp)
        · split at h
          · exact absurd h (by simp)
          · next db'' acc heq =>
              cases h
              obtain ⟨h1, h2, h3, h4⟩ := ih _ _ _ _ heq
              exact ⟨h1, h2, h3, h4⟩

theorem extractLoop_err_preserves (o : AnalyzeOracle) :
    ∀ (panels : List PanelRow) (i : Nat) (db db' : DB) (e : String),
      extractLoop o db panels i = .error (e, db') →
      db'.rule_sets = db.rule_sets ∧ db'.compliance_rules = db.compliance_rules ∧
      db'.compliance_checks = db.compliance_checks ∧
      db'.check_results = db.check_results := by
  intro panels
  induction panels with
  | nil =>
      intro i db db' e h
      simp only [extractLoop] at h
      exact absurd h (by simp)
  | cons p rest ih =>
      intro i db db' e h
      simp only [extractLoop] at h
      split at h
      · cases h
        exact ⟨rfl, rfl, rfl, rfl⟩
      · split at h
        · cases h
          exact ⟨rfl, rfl, rfl, rfl⟩
        · split at h
          · next heq =>
              cases h
              obtain ⟨h1, h2, h3, h4⟩ := ih _ _ _ _ heq
              exact ⟨h1, h2, h3, h4⟩
          · exact absurd h (by simp)

theorem saveLoop_ok_spec (o : AnalyzeOracle) (cid : String) (g : Bool) :
    ∀ (results : List ComplianceResult) (i : Nat) (db db' : DB),
      saveLoop o cid g db results i = .ok db' →
      db'.rule_sets = db.rule_sets ∧ db'.compliance_rules = db.compliance_rules ∧
      db'.compliance_checks = db.compliance_checks ∧
      db'.panel_uploads = db.panel_uploads ∧
      ∀ row ∈ db'.check_results,
        row ∈ db.check_results ∨ ∃ rid r, row = mkCheckResultRow rid cid g r := by
  intro results
  induction results with
  | nil =>
      intro i db db' h
      simp only [saveLoop] at h
      cases h
      exact ⟨rfl, rfl, rfl, rfl, fun row hrow => Or.inl hrow⟩
  | cons r rest ih =>
      intro i db db' h
      simp only [saveLoop] at h
      split at h
      · exact absurd h (by simp)
      · obtain ⟨h1, h2, h3, h4, h5⟩ := ih _ _ _ h
        refine ⟨h1, h2, h3, h4, fun row hrow => ?_⟩
        rcases h5 row hrow with hmem | hnew
        · rcases List.mem_append.mp hmem with hold | hone
          · exact Or.inl hold
          · exact Or.inr ⟨o.resultIds i, r, List.mem_singleton.mp hone⟩
        · exact Or.inr hnew

theorem saveLoop_err_spec (o : AnalyzeOracle) (cid : String) (g : Bool) :
    ∀ (results : List ComplianceResult) (i : Nat) (db db' : DB) (e : String),
      saveLoop o cid g db results i = .error (e, db') →
      db'.rule_sets = db.rule_sets ∧ db'.compliance_rules = db.compliance_rules ∧
      db'.compliance_checks = db.compliance_checks ∧
      db'.panel_uploads = db.panel_uploads ∧
      ∀ row ∈ db'.check_results,
        row ∈ db.check_results ∨ ∃ rid r, row = mkCheckResultRow rid cid g r := by
  intro results
  induction results with
  | nil =>
      intro i db db' e h
      simp only [saveLoop] at h
      exact absurd h (by simp)
  | cons r rest ih =>
      intro i db db' e h
      simp only [saveLoop] at h
      split at h
      · cases h
        exact ⟨rfl, rfl, rfl, rfl, fun row hrow => Or.inl hrow⟩
      · obtain ⟨h1, h2, h3, h4, h5⟩ := ih _ _ _ _ h
        refine ⟨h1, h2, h3, h4, fun row hrow => ?_⟩
        rcases h5 row hrow with hmem | hnew
        · rcases List.mem_append.mp hmem with hold | hone
          · exact Or.inl hold
          · exact Or.inr ⟨o.resultIds i, r, List.mem_singleton.mp hone⟩
        · exact Or.inr hnew

theorem analyzeTry_db_spec (o : AnalyzeOracle) (db : DB) (cid rsId : String)
    (panels : List PanelRow) :
    (tryResultDb (analyzeTry o db cid rsId panels)).rule_sets = db.rule_sets ∧
    (tryResultDb (analyzeTry o db cid rsId panels)).compliance_rules =
      db.compliance_rules ∧
    ∀ row ∈ (tryResultDb (analyzeTry o db cid rsId panels)).check_results,
      row ∈ db.check_results ∨ ∃ rid g r, row = mkCheckResultRow rid cid g r := by
  unfold analyzeTry
  cases hres : resolveRules o db rsId with
  | error e => exact ⟨rfl, rfl, fun row hrow => Or.inl hrow⟩
  | ok pr =>
      obtain ⟨rules, isGen⟩ := pr
      dsimp only
      cases hext : extractLoop o db panels 0 with
      | error ed =>
          obtain ⟨e, db1⟩ := ed
          obtain ⟨h1, h2, h3, h4⟩ := extractLoop_err_preserves o panels 0 db db1 e hext
          exact ⟨h1, h2, fun row hrow => Or.inl (h4 ▸ hrow)⟩
      | ok pr2 =>
          obtain ⟨db1, eps⟩ := pr2
          dsimp only
          obtain ⟨e1, e2, e3, e4⟩ := extractLoop_ok_preserves o panels 0 db db1 eps hext
          cases heval : o.evalOutcome with
          | error e => exact ⟨e1, e2, fun row hrow => Or.inl (e4 ▸ hrow)⟩
          | ok rawResults =>
              dsimp only
              cases hsave : saveLoop o cid isGen db1 (enrichResults rules rawResults) 0 with
              | error ed =>
                  obtain ⟨e, db2⟩ := ed
                  obtain ⟨s1, s2, s3, s4, s5⟩ :=
                    saveLoop_err_spec o cid isGen (enrichResults rules rawResults) 0 db1 db2 e hsave
                  refine ⟨s1.trans e1, s2.trans e2, fun row hrow => ?_⟩
                  rcases s5 row hrow with hmem | ⟨rid, r, hr⟩
                  · exact Or.inl (e4 ▸ hmem)
                  · exact Or.inr ⟨rid, isGen, r, hr⟩
              | ok db2 =>
                  dsimp only
                  obtain ⟨s1, s2, s3, s4, s5⟩ :=
                    saveLoop_ok_spec o cid isGen (enrichResults rules rawResults) 0 db1 db2 hsave
                  cases hupd : o.updateOutcome with
                  | some e =>
                      refine ⟨s1.trans e1, s2.trans e2, fun row hrow => ?_⟩
                      rcases s5 row hrow with hmem | ⟨rid, r, hr⟩
                      · exact Or.inl (e4 ▸ hmem)
                      · exact Or.inr ⟨rid, isGen, r, hr⟩
                  | none =>
                      refine ⟨s1.trans e1, s2.trans e2, fun row hrow => ?_⟩
                      rcases s5 row hrow with hmem | ⟨rid, r, hr⟩
                      · exact Or.inl (e4 ▸ hmem)
                      · exact Or.inr ⟨rid, isGen, r, hr⟩

theorem analyzePOST_db_spec (o : AnalyzeOracle) (db : DB) (uid cid : String) :
    ((analyzePOST o db uid cid).2).rule_sets = db.rule_sets ∧
    ((analyzePOST o db uid cid).2).compliance_rules = db.compliance_rules ∧
    ∀ row ∈ ((analyzePOST o db uid cid).2).check_results,
      row ∈ db.check_results ∨ ∃ rid g r, row = mkCheckResultRow rid cid g r := by
  unfold analyzePOST
  cases hcid : cid == "" with
  | true => exact ⟨rfl, rfl, fun row hrow => Or.inl hrow⟩
  | false =>
      dsimp only
      cases hfind : db.compliance_checks.find? (fun c => c.id == cid && c.user_id == uid) with
      | none => exact ⟨rfl, rfl, fun row hrow => Or.inl hrow⟩
      | some check =>
          dsimp only
          cases hrs : db.rule_sets.find? (fun rs => rs.id == check.rule_set_id) with
          | none => exact ⟨rfl, rfl, fun row hrow => Or.inl hrow⟩
          | some rs =>
              dsimp only
              cases hemp : (db.panel_uploads.filter
                  (fun p => p.compliance_check_id == cid)).isEmpty with
              | true => exact ⟨rfl, rfl, fun row hrow => Or.inl hrow⟩
              | false =>
                  have hspec := analyzeTry_db_spec o db cid check.rule_set_id
                    (db.panel_uploads.filter (fun p => p.compliance_check_id == cid))
                  cases htry : analyzeTry o db cid check.rule_set_id
                      (db.panel_uploads.filter (fun p => p.compliance_check_id == cid)) with
                  | ok out =>
                      obtain ⟨s, res, g, db'⟩ := out
                      rw [htry] at hspec
                      simp only [tryResultDb] at hspec
                      exact hspec
                  | error ed =>
                      obtain ⟨msg, db1⟩ := ed
                      rw [htry] at hspec
                      simp only [tryResultDb] at hspec
                      obtain ⟨p1, p2, p3⟩ := hspec
                      cases hdel : o.deleteOutcome with
                      | none =>
                          refine ⟨p1, p2, fun row hrow => ?_⟩
                          exact p3 row (List.mem_filter.mp hrow).1
                      | some e => exact ⟨p1, p2, p3⟩

theorem importRules_counts_aux (rsId : String) (existing : List StoredRule)
    (ids : Nat → String) :
    ∀ (incoming : List ServiceRule) (st : ImportState),
      ((incoming.foldl (importStep rsId existing ids) st).counts.added =
        st.counts.added + (incoming.filter (fun r =>
          r.status == GenStatus.new ||
            (r.status == GenStatus.updated && (findByCitation existing r).isNone))).length) ∧
      ((incoming.foldl (importStep rsId existing ids) st).counts.updated =
        st.counts.updated + (incoming.filter (fun r =>
          r.status == GenStatus.updated && (findByCitation existing r).isSome)).length) ∧
      ((incoming.foldl (importStep rsId existing ids) st).counts.skipped =
        st.counts.skipped + (incoming.filter (fun r =>
          r.status == GenStatus.unchanged)).length) := by
  intro incoming
  induction incoming with
  | nil => intro st; simp
  | cons r rest ih =>
      intro st
      obtain ⟨ihA, ihU, ihS⟩ := ih (importStep rsId existing ids st r)
      simp only [List.foldl_cons]
      cases hst : r.status with
      | new =>
          refine ⟨?_, ?_, ?_⟩
          · rw [ihA]
            simp [importStep, hst, List.filter_cons]
            omega
          · rw [ihU]
            simp [importStep, hst, List.filter_cons]
          · rw [ihS]
            simp [importStep, hst, List.filter_cons]
      | updated =>
          cases hf : findByCitation existing r with
          | some ex =>
              refine ⟨?_, ?_, ?_⟩
              · rw [ihA]
                simp [importStep, hst, hf, List.filter_cons]
              · rw [ihU]
                simp [importStep, hst, hf, List.filter_cons]
                omega
              · rw [ihS]
                simp [importStep, hst, hf, List.filter_cons]
          | none =>
              refine ⟨?_, ?_, ?_⟩
              · rw [ihA]
                simp [importStep, hst, hf, List.filter_cons]
                omega
              · rw [ihU]
                simp [importStep, hst, hf, List.filter_cons]
              · rw [ihS]
                simp [importStep, hst, hf, List.filter_cons]
      | unchanged =>
          refine ⟨?_, ?_, ?_⟩
          · rw [ihA]
            simp [importStep, hst, List.filter_cons]
          · rw [ihU]
            simp [importStep, hst, List.filter_cons]
          · rw [ihS]
            simp [importStep, hst, List.filter_cons]
            omega

theorem importRules_all_unchanged_aux (rsId : String) (existing : List StoredRule)
    (ids : Nat → String) :
    ∀ (incoming : List ServiceRule) (st : ImportState),
      (∀ r ∈ incoming, r.status = GenStatus.unchanged) →
      incoming.foldl (importStep rsId existing ids) st =
        { st with counts := { st.counts with
            skipped := st.counts.skipped + incoming.length } } := by
  intro incoming
  induction incoming with
  | nil => intro st _; simp
  | cons r rest ih =>
      intro st h
      have hr : r.status = GenStatus.unchanged := h r (List.mem_cons_self r rest)
      simp only [List.foldl_cons]
      rw [ih _ (fun x hx => h x (List.mem_cons_of_mem r hx))]
      simp [importStep, hr, List.length_cons]
      omega

theorem assignGeneratedIds_spec (uuids : Nat → String) :
    ∀ (raw : List RawGenRule) (i : Nat),
      ((assignGeneratedIds uuids i raw).map (fun g => g.is_generated) =
        List.replicate raw.length true) ∧
      ((assignGeneratedIds uuids i raw).map (fun g => g.id) =
        (List.range raw.length).map (fun k => uuids (i + k))) := by
  intro raw
  induction raw with
  | nil => intro i; simp [assignGeneratedIds]
  | cons r rest ih =>
      intro i
      obtain ⟨ih1, ih2⟩ := ih (i + 1)
      constructor
      · simp only [assignGeneratedIds, List.map_cons, List.length_cons,
          List.replicate_succ, ih1]
      · simp only [assignGeneratedIds, List.map_cons, List.length_cons,
          List.range_succ_eq_map, List.map_map, ih2]
        refine List.cons_eq_cons.mpr ⟨congrArg uuids (by omega), ?_⟩
        exact List.map_congr_left (fun k _ => congrArg uuids (by omega))

theorem firstMatch_eq_default (t : String) :
    ∀ tbl : List (List String × String),
      (∀ e ∈ tbl, e.1.any (fun k => jsIncludes t k) = false) →
      firstMatch t tbl = "General" := by
  intro tbl
  induction tbl with
  | nil => intro _; rfl
  | cons e rest ih =>
      intro h
      obtain ⟨kws, cat⟩ := e
      have h1 := h (kws, cat) (List.mem_cons_self _ _)
      simp only at h1
      simp only [firstMatch, h1, Bool.false_eq_true, if_false]
      exact ih (fun x hx => h x (List.mem_cons_of_mem _ hx))

theorem joinResults_mem (rules : List StoredRule) :
    ∀ (l : List CheckResultRow) (pr : CheckResultRow × StoredRule),
      pr ∈ l.foldr (fun r acc =>
          match rules.find? (fun cr => some cr.id == r.rule_id) with
          | some rule => (r, rule) :: acc
          | none => acc) [] ↔
        pr.1 ∈ l ∧ rules.find? (fun cr => some cr.id == pr.1.rule_id) = some pr.2 := by
  intro l
  induction l with
  | nil => intro pr; simp
  | cons r rest ih =>
      intro pr
      simp only [List.foldr_cons]
      cases hfind : rules.find? (fun cr => some cr.id == r.rule_id) with
      | some rule =>
          constructor
          · intro hmem
            rcases List.mem_cons.mp hmem with heq | hmem'
            · subst heq
              exact ⟨List.mem_cons_self _ _, hfind⟩
            · obtain ⟨h1, h2⟩ := (ih pr).mp hmem'
              exact ⟨List.mem_cons_of_mem _ h1, h2⟩
          · rintro ⟨hmem, hf⟩
            rcases List.mem_cons.mp hmem with heq | hmem'
            · have : rules.find? (fun cr => some cr.id == pr.1.rule_id) = some rule := by
                rw [heq]; exact hfind
              rw [hf] at this
              have hpr : pr = (r, rule) := by
                obtain ⟨a, b⟩ := pr
                simp only at heq
                cases Option.some.inj this
                rw [heq]
              rw [hpr]
              exact List.mem_cons_self _ _
            · exact List.mem_cons_of_mem _ ((ih pr).mpr ⟨hmem', hf⟩)
      | none =>
          constructor
          · intro hmem
            obtain ⟨h1, h2⟩ := (ih pr).mp hmem
            exact ⟨List.mem_cons_of_mem _ h1, h2⟩
          · rintro ⟨hmem, hf⟩
            rcases List.mem_cons.mp hmem with heq | hmem'
            · rw [heq] at hf
              rw [hfind] at hf
              exact absurd hf (by simp)
            · exact (ih pr).mpr ⟨hmem', hf⟩

/-! ## Claim theorems -/

/-- C1: for every list of per-rule verdicts produced by evaluation,
`runComplianceCheck` returns passCount, warningCount and failCount equal to
the number of verdicts with status pass, warning and fail respectively, and
overallStatus is fail if failCount>0, else warning if warningCount>0, else
pass — a single fail verdict dominates any number of passes. -/
theorem summary_counts_and_precedence (rules : List AnyRule)
    (raw : List ComplianceResult) :
    (complianceSummary (enrichResults rules raw)).passCount =
      (enrichResults rules raw).countP (fun r => r.status == CStatus.pass) ∧
    (complianceSummary (enrichResults rules raw)).warningCount =
      (enrichResults rules raw).countP (fun r => r.status == CStatus.warning) ∧
    (complianceSummary (enrichResults rules raw)).failCount =
      (enrichResults rules raw).countP (fun r => r.status == CStatus.fail) ∧
    (complianceSummary (enrichResults rules raw)).overallStatus =
      (if 0 < (complianceSummary (enrichResults rules raw)).failCount then
        CStatus.fail
       else if 0 < (complianceSummary (enrichResults rules raw)).warningCount then
        CStatus.warning
       else CStatus.pass) ∧
    ∀ r ∈ enrichResults rules raw, r.status = CStatus.fail →
      (complianceSummary (enrichResults rules raw)).overallStatus = CStatus.fail := by
  have hfailcount : (complianceSummary (enrichResults rules raw)).failCount =
      (enrichResults rules raw).countP (fun r => r.status == CStatus.fail) :=
    (List.countP_eq_length_filter _ _).symm
  refine ⟨(List.countP_eq_length_filter _ _).symm,
    (List.countP_eq_length_filter _ _).symm, hfailcount, rfl, ?_⟩
  intro r hr hst
  have hpos : 0 < (complianceSummary (enrichResults rules raw)).failCount := by
    rw [hfailcount]
    exact List.countP_pos_iff.mpr ⟨r, hr, by simp [hst]⟩
  have hchar : (complianceSummary (enrichResults rules raw)).overallStatus =
      (if 0 < (complianceSummary (enrichResults rules raw)).failCount then
        CStatus.fail
       else if 0 < (complianceSummary (enrichResults rules raw)).warningCount then
        CStatus.warning
       else CStatus.pass) := rfl
  rw [hchar, if_pos hpos]

/-- Witness for C1: a single fail verdict makes the overall status fail. -/
theorem summary_counts_and_precedence_witness :
    (complianceSummary (enrichResults [] [fixtureFailVerdict])).overallStatus =
      CStatus.fail :=
  (summary_counts_and_precedence [] [fixtureFailVerdict]).2.2.2.2 fixtureFailVerdict
    (by decide) (by decide)

/-- C3: every CheckResult row the analyze route creates satisfies exactly
one provenance form — rule_id set, XOR (is_generated_rule and
generated_rule_name set); and every result row in the database after an
analyze run is either pre-existing or provenance-exclusive. -/
theorem checkResult_provenance_exclusive :
    (∀ rid cid isGen r, ProvenanceExclusive (mkCheckResultRow rid cid isGen r)) ∧
    (∀ o db uid cid row, row ∈ ((analyzePOST o db uid cid).2).check_results →
      row ∈ db.check_results ∨ ProvenanceExclusive row) := by
  have hmk : ∀ rid cid isGen r, ProvenanceExclusive (mkCheckResultRow rid cid isGen r) := by
    intro rid cid isGen r
    cases isGen with
    | false =>
        left
        simp [mkCheckResultRow, ProvenanceExclusive]
    | true =>
        right
        simp [mkCheckResultRow, ProvenanceExclusive]
  refine ⟨hmk, ?_⟩
  intro o db uid cid row hrow
  rcases (analyzePOST_db_spec o db uid cid).2.2 row hrow with hmem | ⟨rid, g, r, hr⟩
  · exact Or.inl hmem
  · exact Or.inr (hr ▸ hmk rid cid g r)

/-- Witness for C3 applied to a run over a database that already holds a
generated-provenance row. -/
theorem checkResult_provenance_exclusive_witness :
    fixtureGenResultRow ∈ fixtureDbGeneratedResults.check_results ∨
      ProvenanceExclusive fixtureGenResultRow :=
  checkResult_provenance_exclusive.2 oracleEmptyVerdicts fixtureDbGeneratedResults
    "u1" "chk1" fixtureGenResultRow (by decide)

/-- C5: with zero active rules the resolver returns model-generated rules,
each marked is_generated with an id from the fresh-uuid supply, and the
rule store is never written by the analyze route; with at least one active
rule it returns exactly the persisted rules unmodified. -/
theorem resolveRules_spec :
    (∀ (o : AnalyzeOracle) (db : DB) (rsId : String),
      (db.compliance_rules.filter
        (fun r => r.rule_set_id == rsId && r.is_active)).isEmpty = false →
      resolveRules o db rsId =
        .ok ((db.compliance_rules.filter
          (fun r => r.rule_set_id == rsId && r.is_active)).map AnyRule.persisted,
          false)) ∧
    (∀ (o : AnalyzeOracle) (db : DB) (rsId : String) (raw : List RawGenRule),
      (db.compliance_rules.filter
        (fun r => r.rule_set_id == rsId && r.is_active)).isEmpty = true →
      o.genRules = .ok raw →
      resolveRules o db rsId =
        .ok ((generateDefaultRules o.uuids raw).map AnyRule.generated, true)) ∧
    (∀ (uuids : Nat → String) (raw : List RawGenRule),
      (generateDefaultRules uuids raw).map (fun g => g.is_generated) =
        List.replicate raw.length true ∧
      (generateDefaultRules uuids raw).map (fun g => g.id) =
        (List.range raw.length).map uuids) ∧
    (∀ (o : AnalyzeOracle) (db : DB) (uid cid : String),
      ((analyzePOST o db uid cid).2).compliance_rules = db.compliance_rules) := by
  refine ⟨?_, ?_, ?_, ?_⟩
  · intro o db rsId h
    simp [resolveRules, h]
  · intro o db rsId raw h hgen
    simp [resolveRules, h, hgen]
  · intro uuids raw
    have h := assignGeneratedIds_spec uuids raw 0
    have h2 : (generateDefaultRules uuids raw).map (fun g => g.id) =
        (List.range raw.length).map (fun k => uuids (0 + k)) := h.2
    refine ⟨h.1, ?_⟩
    rw [h2]
    exact List.map_congr_left (fun k _ => congrArg uuids (by omega))
  · intro o db uid cid
    exact (analyzePOST_db_spec o db uid cid).2.1

/-- Witness for C5: the persisted path on a rule set with one active rule,
and the generated path on a rule set with no rules. -/
theorem resolveRules_spec_witness :
    resolveRules oracleEmptyVerdicts fixtureDb "rs1" =
      .ok ([AnyRule.persisted fixtureRule], false) ∧
    resolveRules oracleGenOne fixtureDbNoRules "rs1" =
      .ok ((generateDefaultRules oracleGenOne.uuids [fixtureRawGenRule]).map
        AnyRule.generated, true) :=
  ⟨resolveRules_spec.1 oracleEmptyVerdicts fixtureDb "rs1" (by decide),
   resolveRules_spec.2.1 oracleGenOne fixtureDbNoRules "rs1" [fixtureRawGenRule]
     (by decide) rfl⟩

/-- C6 counterexample: a rule named "THC Percentage Display" whose
description mentions "potency" classifies as "Placement Rules", not
"THC Content", because the keyword "display" matches the earlier
Placement Rules entry first. -/
theorem inferCategory_display_counterexample :
    jsIncludes (jsToLower ("THC Percentage Display" ++ " " ++
        "Verifies the potency of the product")) "potency" = true ∧
    inferCategory "THC Percentage Display" "Verifies the potency of the product" =
      "Placement Rules" ∧
    ¬ inferCategory "THC Percentage Display" "Verifies the potency of the product" =
      "THC Content" :=
  ⟨by decide, by decide, by decide⟩

/-- C6 amended: inferCategory is first-match keyword lookup over the fixed
keyword table with default "General"; the "THC Percentage Display" example
classifies as "Placement Rules" (its name matches the earlier "display"
keyword), and a rule matching no keyword classifies as "General". -/
theorem inferCategory_keyword_table :
    (∀ n d, inferCategory n d = firstMatch (jsToLower (n ++ " " ++ d)) categoryTable) ∧
    (∀ n d, (∀ e ∈ categoryTable,
        e.1.any (fun k => jsIncludes (jsToLower (n ++ " " ++ d)) k) = false) →
      inferCategory n d = "General") ∧
    inferCategory "THC Percentage Display" "Verifies the potency of the product" =
      "Placement Rules" ∧
    inferCategory "Cultivator License" "license number shown" = "General" := by
  have htab : ∀ n d,
      inferCategory n d = firstMatch (jsToLower (n ++ " " ++ d)) categoryTable := by
    intro n d
    simp only [inferCategory, firstMatch, categoryTable, List.any_cons, List.any_nil,
      Bool.or_false, Bool.or_assoc]
  refine ⟨htab, ?_, by decide, by decide⟩
  intro n d h
  rw [htab n d]
  exact firstMatch_eq_default _ categoryTable h

/-- Witness for C6 amended: a rule whose text matches no keyword in the
table classifies as "General" through the no-match clause. -/
theorem inferCategory_keyword_table_witness :
    inferCategory "Cultivator" "number shown on package" = "General" :=
  inferCategory_keyword_table.2.1 "Cultivator" "number shown on package" (by decide)

/-- C7: in the combined record built by `runComplianceCheck`, each key of
an incoming panel merges against the accumulated record as follows — both
values arrays: concatenation; the key rawText: space-joined concatenation;
any other collision: the later panel value overwrites — and `combinedData`
folds this merge over all panels starting from the empty record. -/
theorem combinedData_merge_spec :
    (∀ panels, combinedData panels = panels.foldl mergePanel []) ∧
    ∀ (acc p : ExtractedRec) (k : String), (p.map Prod.fst).Nodup →
      (getVal p k = none → getVal (mergePanel acc p) k = getVal acc k) ∧
      (∀ xs ys, getVal p k = some (JVal.arr xs) → getVal acc k = some (JVal.arr ys) →
        getVal (mergePanel acc p) k = some (JVal.arr (ys ++ xs))) ∧
      (∀ v, getVal p k = some v → k = "rawText" →
        (∀ xs ys, ¬(v = JVal.arr xs ∧ getVal acc k = some (JVal.arr ys))) →
        getVal (mergePanel acc p) k =
          some (JVal.prim (JPrim.str (rawTextJoin acc v)))) ∧
      (∀ v, getVal p k = some v → ¬ k = "rawText" →
        (∀ xs ys, ¬(v = JVal.arr xs ∧ getVal acc k = some (JVal.arr ys))) →
        getVal (mergePanel acc p) k = some v) := by
  refine ⟨fun panels => rfl, ?_⟩
  intro acc p k hnd
  have hlaw : getVal (mergePanel acc p) k =
      match getVal p k with
      | some v => some (mergeVal acc k v)
      | none => getVal acc k :=
    mergePanel_foldl_getVal acc k p acc hnd
  refine ⟨?_, ?_, ?_, ?_⟩
  · intro hnone
    rw [hlaw, hnone]
  · intro xs ys hp hacc
    rw [hlaw, hp]
    simp [mergeVal, hacc]
  · intro v hp hk hnot
    subst hk
    rw [hlaw, hp]
    cases v with
    | prim pv => simp [mergeVal]
    | arr xs =>
        cases hg : getVal acc "rawText" with
        | none => simp [mergeVal, hg]
        | some w =>
            cases w with
            | prim pw => simp [mergeVal, hg]
            | arr ys => exact absurd ⟨rfl, hg⟩ (hnot xs ys)
  · intro v hp hk hnot
    rw [hlaw, hp]
    cases v with
    | prim pv => simp [mergeVal, hk]
    | arr xs =>
        cases hg : getVal acc k with
        | none => simp [mergeVal, hg, hk]
        | some w =>
            cases w with
            | prim pw => simp [mergeVal, hg, hk]
            | arr ys => exact absurd ⟨rfl, hg⟩ (hnot xs ys)

/-- Witness for C7: concatenation of the warnings arrays of two panels. -/
theorem combinedData_merge_spec_witness :
    getVal (mergePanel fixtureAcc fixturePanelRec) "warnings" =
      some (JVal.arr [JPrim.str "keep away", JPrim.str "addictive"]) :=
  (combinedData_merge_spec.2 fixtureAcc fixturePanelRec "warnings" (by decide)).2.1
    [JPrim.str "addictive"] [JPrim.str "keep away"] (by decide) (by decide)

/-- C8: for each rule returned by the external extraction service the
importer inserts a new row with generation_status new when tagged new;
when tagged updated it updates the citation-matched existing rule in place,
or inserts as new when no citation matches; when tagged unchanged it
performs no write; and added, updated and skipped count exactly these
actions. -/
theorem importRules_diff_spec (rsId : String) (existing : List StoredRule)
    (incoming : List ServiceRule) (ids : Nat → String) :
    ((importRules rsId existing incoming ids).counts.added =
      (incoming.filter (fun r =>
        r.status == GenStatus.new ||
          (r.status == GenStatus.updated &&
            (findByCitation existing r).isNone))).length) ∧
    ((importRules rsId existing incoming ids).counts.updated =
      (incoming.filter (fun r =>
        r.status == GenStatus.updated && (findByCitation existing r).isSome)).length) ∧
    ((importRules rsId existing incoming ids).counts.skipped =
      (incoming.filter (fun r => r.status == GenStatus.unchanged)).length) ∧
    (∀ st r, r.status = GenStatus.new →
      importStep rsId existing ids st r =
        { store := st.store ++
            [newRuleRow rsId (ids st.nextId) r
              (inferCategory r.rule_name r.rule_description)]
          counts := { st.counts with added := st.counts.added + 1 }
          nextId := st.nextId + 1 }) ∧
    (∀ st r ex, r.status = GenStatus.updated → findByCitation existing r = some ex →
      importStep rsId existing ids st r =
        { store := applyRuleUpdate st.store ex.id r
            (inferCategory r.rule_name r.rule_description)
          counts := { st.counts with updated := st.counts.updated + 1 }
          nextId := st.nextId }) ∧
    (∀ st r, r.status = GenStatus.updated → findByCitation existing r = none →
      importStep rsId existing ids st r =
        { store := st.store ++
            [newRuleRow rsId (ids st.nextId) r
              (inferCategory r.rule_name r.rule_description)]
          counts := { st.counts with added := st.counts.added + 1 }
          nextId := st.nextId + 1 }) ∧
    (∀ st r, r.status = GenStatus.unchanged →
      importStep rsId existing ids st r =
        { st with counts :=
            { st.counts with skipped := st.counts.skipped + 1 } }) ∧
    (∀ rid r cat, (newRuleRow rsId rid r cat).generation_status = some "new") := by
  obtain ⟨hA, hU, hS⟩ := importRules_counts_aux rsId existing ids incoming
    { store := existing, counts := ⟨0, 0, 0⟩, nextId := 0 }
  refine ⟨by simpa using hA, by simpa using hU, by simpa using hS, ?_, ?_, ?_, ?_, ?_⟩
  · intro st r h
    simp [importStep, h]
  · intro st r ex h hf
    simp [importStep, h, hf]
  · intro st r h hf
    simp [importStep, h, hf]
  · intro st r h
    simp [importStep, h]
  · intro rid r cat
    rfl

/-- Witness for C8: an unchanged-tagged rule leaves the store untouched and
only bumps the skipped counter. -/
theorem importRules_diff_spec_witness :
    importStep "rs1" [fixtureRule] (fun _ => "fresh-id")
        ⟨[fixtureRule], ⟨0, 0, 0⟩, 0⟩ fixtureUnchangedRule =
      { store := [fixtureRule], counts := ⟨0, 0, 1⟩, nextId := 0 } :=
  (importRules_diff_spec "rs1" [fixtureRule] [] (fun _ => "fresh-id")).2.2.2.2.2.2.1
    ⟨[fixtureRule], ⟨0, 0, 0⟩, 0⟩ fixtureUnchangedRule (by decide)

/-- C9: running the importer on a response where every rule is tagged
unchanged performs no database write and returns added=0, updated=0,
skipped=total. -/
theorem importRules_idempotent (rsId : String) (existing : List StoredRule)
    (incoming : List ServiceRule) (ids : Nat → String)
    (h : ∀ r ∈ incoming, r.status = GenStatus.unchanged) :
    importRules rsId existing incoming ids =
      { store := existing, counts := ⟨0, 0, incoming.length⟩, nextId := 0 } := by
  unfold importRules
  rw [importRules_all_unchanged_aux rsId existing ids incoming _ h]
  simp

/-- Witness for C9: a second run over two unchanged rules reports
added=0, updated=0, skipped=2 with the store unchanged. -/
theorem importRules_idempotent_witness :
    importRules "rs1" [fixtureRule] [fixtureUnchangedRule, fixtureUnchangedRule]
        (fun _ => "fresh-id") =
      { store := [fixtureRule], counts := ⟨0, 0, 2⟩, nextId := 0 } :=
  importRules_idempotent "rs1" [fixtureRule]
    [fixtureUnchangedRule, fixtureUnchangedRule] (fun _ => "fresh-id") (by decide)

/-- C10: the get-check endpoint returns exactly the result rows whose
rule_id joins to an existing ComplianceRule; rows with NULL rule_id are
omitted, and a check whose results all carry generated-rule provenance
yields an empty results list. -/
theorem getCheck_results_join_spec (db : DB) (checkId : String) :
    (∀ pr : CheckResultRow × StoredRule,
      pr ∈ getCheckResultsJoin db checkId ↔
        pr.1 ∈ db.check_results ∧ pr.1.compliance_check_id = checkId ∧
          db.compliance_rules.find? (fun cr => some cr.id == pr.1.rule_id) =
            some pr.2) ∧
    (∀ r ∈ db.check_results, r.rule_id = none →
      ∀ rule, (r, rule) ∉ getCheckResultsJoin db checkId) ∧
    ((∀ r ∈ db.check_results, r.compliance_check_id = checkId → r.rule_id = none) →
      getCheckResultsJoin db checkId = []) := by
  have hmem : ∀ pr : CheckResultRow × StoredRule,
      pr ∈ getCheckResultsJoin db checkId ↔
        pr.1 ∈ db.check_results ∧ pr.1.compliance_check_id = checkId ∧
          db.compliance_rules.find? (fun cr => some cr.id == pr.1.rule_id) =
            some pr.2 := by
    intro pr
    unfold getCheckResultsJoin
    rw [List.mem_mergeSort, joinResults_mem]
    constructor
    · rintro ⟨hm, hf⟩
      obtain ⟨hm1, hm2⟩ := List.mem_filter.mp hm
      exact ⟨hm1, by simpa using hm2, hf⟩
    · rintro ⟨h1, h2, hf⟩
      exact ⟨List.mem_filter.mpr ⟨h1, by simp [h2]⟩, hf⟩
  refine ⟨hmem, ?_, ?_⟩
  · intro r hr hnone rule hmem'
    obtain ⟨_, _, hf⟩ := (hmem (r, rule)).mp hmem'
    have hfn : db.compliance_rules.find?
        (fun cr => some cr.id == (r, rule).1.rule_id) = none := by
      apply List.find?_eq_none.mpr
      intro cr _
      simp [hnone]
    rw [hfn] at hf
    exact Option.noConfusion hf
  · intro hall
    apply List.eq_nil_iff_forall_not_mem.mpr
    intro pr hpr
    obtain ⟨h1, h2, hf⟩ := (hmem pr).mp hpr
    have hnone := hall pr.1 h1 h2
    have hfn : db.compliance_rules.find?
        (fun cr => some cr.id == pr.1.rule_id) = none := by
      apply List.find?_eq_none.mpr
      intro cr _
      simp [hnone]
    rw [hfn] at hf
    exact Option.noConfusion hf

/-- Witness for C10: a completed check whose results were all written with
generated-rule provenance returns an empty results list. -/
theorem getCheck_results_join_spec_witness :
    getCheckResultsJoin fixtureDbGeneratedResults "chk1" = [] :=
  (getCheck_results_join_spec fixtureDbGeneratedResults "chk1").2.2 (by decide)

/-- C4: when any step inside the try block fails, the route deletes the
whole ComplianceCheck row — cascading to its panels and any
partially-written results — and returns the original error; if the cleanup
delete itself fails, the original error is still the one returned. -/
theorem analyze_failure_rollback
    (o : AnalyzeOracle) (db : DB) (uid cid : String) (check : CheckRow)
    (rs : RuleSetRow) (msg : String) (db1 : DB)
    (hcid : (cid == "") = false)
    (hfind : db.compliance_checks.find?
      (fun c => c.id == cid && c.user_id == uid) = some check)
    (hrs : db.rule_sets.find? (fun r => r.id == check.rule_set_id) = some rs)
    (hpanels : (db.panel_uploads.filter
      (fun p => p.compliance_check_id == cid)).isEmpty = false)
    (htry : analyzeTry o db cid check.rule_set_id
        (db.panel_uploads.filter (fun p => p.compliance_check_id == cid)) =
      .error (msg, db1)) :
    (o.deleteOutcome = none →
      analyzePOST o db uid cid =
        (.serverError "Failed to analyze panels" msg, deleteCheckCascade db1 cid) ∧
      (∀ c ∈ ((analyzePOST o db uid cid).2).compliance_checks, ¬ c.id = cid) ∧
      (∀ p ∈ ((analyzePOST o db uid cid).2).panel_uploads,
        ¬ p.compliance_check_id = cid) ∧
      (∀ r ∈ ((analyzePOST o db uid cid).2).check_results,
        ¬ r.compliance_check_id = cid)) ∧
    (∀ e, o.deleteOutcome = some e →
      analyzePOST o db uid cid =
        (.serverError "Failed to analyze panels" msg, db1)) := by
  have hmain : analyzePOST o db uid cid =
      (match o.deleteOutcome with
       | none =>
          (ApiResponse.serverError "Failed to analyze panels" msg,
            deleteCheckCascade db1 cid)
       | some _ =>
          (ApiResponse.serverError "Failed to analyze panels" msg, db1)) := by
    unfold analyzePOST
    simp only [hcid, Bool.false_eq_true, if_false, hfind, hrs, hpanels, htry]
  constructor
  · intro hdel
    have heq : analyzePOST o db uid cid =
        (ApiResponse.serverError "Failed to analyze panels" msg,
          deleteCheckCascade db1 cid) := by
      rw [hmain, hdel]
    refine ⟨heq, ?_, ?_, ?_⟩
    · intro c hc
      rw [heq] at hc
      have := (List.mem_filter.mp hc).2
      simpa using this
    · intro p hp
      rw [heq] at hp
      have := (List.mem_filter.mp hp).2
      simpa using this
    · intro r hr
      rw [heq] at hr
      have := (List.mem_filter.mp hr).2
      simpa using this
  · intro e hdel
    rw [hmain, hdel]

/-- Witness for C4: a failing rule-generation call on the fixture database,
once with the cleanup delete succeeding and once with it failing. -/
theorem analyze_failure_rollback_witness :
    (analyzePOST oracleGenFails fixtureDbNoRules "u1" "chk1" =
      (ApiResponse.serverError "Failed to analyze panels" "Gemini API error",
        deleteCheckCascade fixtureDbNoRules "chk1")) ∧
    (analyzePOST oracleGenFailsDeleteFails fixtureDbNoRules "u1" "chk1" =
      (ApiResponse.serverError "Failed to analyze panels" "Gemini API error",
        fixtureDbNoRules)) :=
  ⟨((analyze_failure_rollback oracleGenFails fixtureDbNoRules "u1" "chk1"
      { id := "chk1", user_id := "u1", rule_set_id := "rs1" }
      { id := "rs1", user_id := "u1", product_type := "flower" }
      "Gemini API error" fixtureDbNoRules
      (by decide) (by decide) (by decide) (by decide) rfl).1 rfl).1,
   (analyze_failure_rollback oracleGenFailsDeleteFails fixtureDbNoRules "u1" "chk1"
      { id := "chk1", user_id := "u1", rule_set_id := "rs1" }
      { id := "rs1", user_id := "u1", product_type := "flower" }
      "Gemini API error" fixtureDbNoRules
      (by decide) (by decide) (by decide) (by decide) rfl).2
     "connection lost" rfl⟩

/-- C2 counterexample: with an empty verdict list the analyze route still
writes the summary — the stored check goes from incomplete (no
overall_status, completed_at NULL) to overall_status pass with zero
counters and completed_at set, contradicting the claim that the check
remains incomplete with no status change. -/
theorem analyze_empty_verdicts_counterexample :
    oracleEmptyVerdicts.evalOutcome = .ok [] ∧
    fixtureDb.compliance_checks =
      [{ id := "chk1", user_id := "u1", rule_set_id := "rs1" }] ∧
    ((analyzePOST oracleEmptyVerdicts fixtureDb "u1" "chk1").2).compliance_checks =
      [{ id := "chk1", user_id := "u1", rule_set_id := "rs1",
         overall_status := some CStatus.pass, pass_count := 0, warning_count := 0,
         fail_count := 0, completed := true }] :=
  ⟨rfl, rfl, by decide⟩

/-- C2 amended: when evaluation yields an empty verdict list and every
step succeeds, the route marks the check completed with overall_status
pass and all three counters zero (it does not leave the check untouched). -/
theorem analyze_empty_verdicts_marks_pass
    (o : AnalyzeOracle) (db : DB) (uid cid : String) (check : CheckRow)
    (rs : RuleSetRow) (rules : List AnyRule) (isGen : Bool) (db1 : DB)
    (eps : List (String × String × ExtractedRec))
    (hcid : (cid == "") = false)
    (hfind : db.compliance_checks.find?
      (fun c => c.id == cid && c.user_id == uid) = some check)
    (hrs : db.rule_sets.find? (fun r => r.id == check.rule_set_id) = some rs)
    (hpanels : (db.panel_uploads.filter
      (fun p => p.compliance_check_id == cid)).isEmpty = false)
    (hres : resolveRules o db check.rule_set_id = .ok (rules, isGen))
    (hext : extractLoop o db
      (db.panel_uploads.filter (fun p => p.compliance_check_id == cid)) 0 =
        .ok (db1, eps))
    (heval : o.evalOutcome = .ok ([] : List ComplianceResult))
    (hupd : o.updateOutcome = none) :
    analyzePOST o db uid cid =
      (.ok ⟨CStatus.pass, 0, 0, 0⟩ isGen,
        updateCheckSummary db1 cid ⟨CStatus.pass, 0, 0, 0⟩) ∧
    ∀ c ∈ ((analyzePOST o db uid cid).2).compliance_checks, c.id = cid →
      c.overall_status = some CStatus.pass ∧ c.pass_count = 0 ∧
        c.warning_count = 0 ∧ c.fail_count = 0 ∧ c.completed = true := by
  have htry : analyzeTry o db cid check.rule_set_id
      (db.panel_uploads.filter (fun p => p.compliance_check_id == cid)) =
        .ok (⟨CStatus.pass, 0, 0, 0⟩, [], isGen,
          updateCheckSummary db1 cid ⟨CStatus.pass, 0, 0, 0⟩) := by
    unfold analyzeTry
    rw [hres]
    dsimp only
    rw [hext]
    dsimp only
    rw [heval]
    dsimp only
    rw [hupd]
    rfl
  have heq : analyzePOST o db uid cid =
      (.ok ⟨CStatus.pass, 0, 0, 0⟩ isGen,
        updateCheckSummary db1 cid ⟨CStatus.pass, 0, 0, 0⟩) := by
    unfold analyzePOST
    simp only [hcid, Bool.false_eq_true, if_false, hfind, hrs, hpanels, htry]
  refine ⟨heq, ?_⟩
  rw [heq]
  intro c hc hcs
  simp only [updateCheckSummary] at hc
  obtain ⟨c₀, hc₀, hfc⟩ := List.mem_map.mp hc
  by_cases h0 : (c₀.id == cid) = true
  · rw [← hfc]
    simp [h0]
  · rw [← hfc] at hcs
    simp only [h0, Bool.false_eq_true, if_false] at hcs
    exact absurd (beq_iff_eq.mpr hcs) h0

/-- Witness for C2 amended: the fixture run with empty verdicts ends with
the check marked pass and completed. -/
theorem analyze_empty_verdicts_marks_pass_witness :
    analyzePOST oracleEmptyVerdicts fixtureDb "u1" "chk1" =
      (.ok ⟨CStatus.pass, 0, 0, 0⟩ false,
        updateCheckSummary fixtureDbExtracted "chk1" ⟨CStatus.pass, 0, 0, 0⟩) :=
  (analyze_empty_verdicts_marks_pass oracleEmptyVerdicts fixtureDb "u1" "chk1"
    { id := "chk1", user_id := "u1", rule_set_id := "rs1" }
    { id := "rs1", user_id := "u1", product_type := "flower" }
    [AnyRule.persisted fixtureRule] false fixtureDbExtracted
    [("p1", "front", [])]
    (by decide) (by decide) (by decide) (by decide) rfl rfl
    rfl rfl).1

end LabelCheck
